import Mathlib

/-!
Shallow embedding of `common/include/Utilities/Dependencies.h` (PCSX2).

The file embeds the semantic content of the header: the
`ImplementEnumOperators` macro family (increment/decrement operators,
sentinel comparisons against `pxEnumEnd`, `EnumIsValid`, `EnumAssert`),
the `ScopedBool` scope guard, the debug-gated try/catch preprocessor
cascade (lines 26-40), and the human-readable size constants
(`_1kb` through `_4gb`).

Enumeration values are embedded as their underlying `int` values (`Int`);
an enumeration conforming to the macro is characterised by its `_FIRST`
and `_COUNT` integer positions.
-/

namespace PCSX2

/-- A conforming bounded enumeration, characterised by the integer values of
its `enumName_FIRST` and `enumName_COUNT` members (contiguous values, no
custom assignments, per the macro's documented requirement). -/
structure EnumBounds where
  first : Int
  count : Int

/-- Body of `operator++(enumName &src)`: `src = (enumName)((int)src + 1); return src;`. -/
def preIncrement (src : Int) : Int := src + 1

/-- Body of `operator--(enumName &src)`: `src = (enumName)((int)src - 1); return src;`. -/
def preDecrement (src : Int) : Int := src - 1

/-- Body of `operator++(enumName &src, int)`: returns `(orig, value left in src)`. -/
def postIncrement (src : Int) : Int × Int := (src, src + 1)

/-- Body of `operator--(enumName &src, int)`: returns `(orig, value left in src)`. -/
def postDecrement (src : Int) : Int × Int := (src, src - 1)

/-- Body of `operator<(const enumName &left, const pxEnumEnd_t &)`:
`(int)left < enumName_COUNT`. -/
def ltEnd (E : EnumBounds) (left : Int) : Bool := decide (left < E.count)

/-- Body of `operator!=(const enumName &left, const pxEnumEnd_t &)`:
`(int)left != enumName_COUNT`. -/
def neEnd (E : EnumBounds) (left : Int) : Bool := !(decide (left = E.count))

/-- Body of `operator==(const enumName &left, const pxEnumEnd_t &)`:
`(int)left == enumName_COUNT`. -/
def eqEnd (E : EnumBounds) (left : Int) : Bool := decide (left = E.count)

/-- Body of `EnumIsValid(enumName id)`:
`((int)id >= enumName_FIRST) && ((int)id < enumName_COUNT)`. -/
def EnumIsValid (E : EnumBounds) (id : Int) : Bool :=
  decide (id ≥ E.first) && decide (id < E.count)

/-- Modelled from the spec: `pxAssert` is declared in
`Utilities/Assertions.h`, which is not part of this source tree. Per the
spec, the external assertion collaborator is invoked exactly when the
asserted condition is false, and the assertion has no other effect. The
value returned records whether the collaborator was invoked. -/
def pxAssertInvoked (cond : Bool) : Bool := !cond

/-- Body of `EnumAssert(enumName id)`: `pxAssert(EnumIsValid(id));`. The
result records whether the assertion collaborator was invoked, paired with
the (unmodified) value `id`, which is passed by value and never written. -/
def EnumAssert (E : EnumBounds) (id : Int) : Bool × Int :=
  (pxAssertInvoked (EnumIsValid E id), id)

/-- Fuel-indexed iteration loop in the sentinel form: starting at `v`,
stop when `v == pxEnumEnd` (the `operator==` above), otherwise visit `v`
and step with `operator++`. -/
def iterFuel (E : EnumBounds) : Nat → Int → List Int
  | 0, _ => []
  | Nat.succ n, v => bif eqEnd E v then [] else v :: iterFuel E n (preIncrement v)

/-- Iteration of the enumeration from `FIRST` until `== pxEnumEnd`, with
exactly enough fuel for the (terminating) in-range run. -/
def enumIterate (E : EnumBounds) : List Int :=
  iterFuel E (E.count - E.first).toNat E.first

/-- Fuel-indexed iteration loop in the explicit form: continue while
`(int)v < enumName_COUNT`, written out directly rather than through the
sentinel operator. -/
def iterFuelLt (E : EnumBounds) : Nat → Int → List Int
  | 0, _ => []
  | Nat.succ n, v => bif decide (v < E.count) then v :: iterFuelLt E n (preIncrement v) else []

/-- Iteration of the enumeration from `FIRST` in the explicit
`< COUNT` form. -/
def enumIterateLt (E : EnumBounds) : List Int :=
  iterFuelLt E (E.count - E.first).toNat E.first

/-- Body of the `ScopedBool` constructor: `boolme = true;` (the target
boolean is the whole mutable state; the recorded address is implicit). -/
def ScopedBool_construct (_boolme : Bool) : Bool := true

/-- Body of the `ScopedBool` destructor: `*m_boolme = false;`. -/
def ScopedBool_destruct (_target : Bool) : Bool := false

/-- Execution of a scope guarded by a `ScopedBool` on the target boolean:
the constructor runs on entry, the body runs on the updated state and
finishes either normally (`Except.ok`) or with an exception
(`Except.error`), and the destructor runs on every exit path before the
outcome propagates, mirroring C++ unwinding. -/
def runWithScopedBool (ε : Type) (body : Bool → Bool × Except ε Unit) (v : Bool) :
    Bool × Except ε Unit :=
  let r := body (ScopedBool_construct v)
  (ScopedBool_destruct r.1, r.2)

/-- Expansion bodies produced by the try/catch preprocessor cascade of
Dependencies.h, lines 26-40. `realCatchParam` is a function-like expansion
that places its argument in the catch clause; `catchFreeClause` is the
object-like expansion `catch (clause)` whose body mentions the identifier
`clause` without declaring it as a parameter, exactly as in the source. -/
inductive PPExpansion
  | realTry
  | realCatchParam
  | ifTrue
  | ifFalse
  | catchFreeClause
deriving DecidableEq

/-- The macro table produced by the cascade: which of the four names is
defined, and to what, after preprocessing. `none` means the name was never
defined. -/
structure TryCatchDefs where
  tryDEBUG : Option PPExpansion
  catchDEBUG : Option PPExpansion
  tryDEVEL : Option PPExpansion
  catchDEVEL : Option PPExpansion

/-- Lines 26-40 of Dependencies.h: the two preprocessor cascades evaluated
in order as a function of the `PCSX2_DEBUG` and `PCSX2_DEVBUILD` flags.
The second cascade's else-branch redefines `tryDEBUG`/`catchDEBUG` (not
`tryDEVEL`/`catchDEVEL`), and its `catchDEVEL` is defined without a
parameter while its body mentions `clause`, exactly as in the source. -/
def tryCatchDefs (pcsx2Debug pcsx2Devbuild : Bool) : TryCatchDefs :=
  let t1 : TryCatchDefs :=
    if pcsx2Debug then
      { tryDEBUG := some PPExpansion.realTry, catchDEBUG := some PPExpansion.realCatchParam,
        tryDEVEL := none, catchDEVEL := none }
    else
      { tryDEBUG := some PPExpansion.ifTrue, catchDEBUG := some PPExpansion.ifFalse,
        tryDEVEL := none, catchDEVEL := none }
  if pcsx2Devbuild || pcsx2Debug then
    { t1 with tryDEVEL := some PPExpansion.realTry, catchDEVEL := some PPExpansion.catchFreeClause }
  else
    { t1 with tryDEBUG := some PPExpansion.ifTrue, catchDEBUG := some PPExpansion.ifFalse }

/-- Size constant `_1kb = 1024 * 1` (declared `sptr`). -/
def _1kb : Int := 1024 * 1

/-- Size constant `_4kb = _1kb * 4`. -/
def _4kb : Int := _1kb * 4

/-- Size constant `_16kb = _1kb * 16`. -/
def _16kb : Int := _1kb * 16

/-- Size constant `_32kb = _1kb * 32`. -/
def _32kb : Int := _1kb * 32

/-- Size constant `_64kb = _1kb * 64`. -/
def _64kb : Int := _1kb * 64

/-- Size constant `_128kb = _1kb * 128`. -/
def _128kb : Int := _1kb * 128

/-- Size constant `_256kb = _1kb * 256`. -/
def _256kb : Int := _1kb * 256

/-- Size constant `_1mb = 1024 * 1024` (declared `s64`). -/
def _1mb : Int := 1024 * 1024

/-- Size constant `_8mb = _1mb * 8`. -/
def _8mb : Int := _1mb * 8

/-- Size constant `_16mb = _1mb * 16`. -/
def _16mb : Int := _1mb * 16

/-- Size constant `_32mb = _1mb * 32`. -/
def _32mb : Int := _1mb * 32

/-- Size constant `_64mb = _1mb * 64`. -/
def _64mb : Int := _1mb * 64

/-- Size constant `_256mb = _1mb * 256`. -/
def _256mb : Int := _1mb * 256

/-- Size constant `_1gb = _1mb * 1024`. -/
def _1gb : Int := _1mb * 1024

/-- Size constant `_4gb = _1gb * 4`. -/
def _4gb : Int := _1gb * 4

/-- Helper: with exactly `n` steps left to the sentinel, the sentinel-form
loop visits `v, v+1, ..., v+n-1` in order. -/
theorem iterFuel_eq_range (E : EnumBounds) :
    ∀ (n : Nat) (v : Int), v + n = E.count →
      iterFuel E n v = (List.range n).map (fun i : Nat => v + (i : Int)) := by
  intro n
  induction n with
  | zero =>
    intro v _
    simp [iterFuel]
  | succ n ih =>
    intro v h
    have hvne : eqEnd E v = false := by
      simp only [eqEnd, decide_eq_false_iff_not]
      intro hv
      omega
    have hstep : (v + 1) + (n : Int) = E.count := by
      push_cast at h
      omega
    have hfun : ((fun i : Nat => v + (i : Int)) ∘ Nat.succ) = fun i : Nat => (v + 1) + (i : Int) := by
      funext i
      simp only [Function.comp]
      push_cast
      ring
    calc iterFuel E (n + 1) v = v :: iterFuel E n (v + 1) := by
          simp [iterFuel, hvne, preIncrement]
      _ = v :: (List.range n).map (fun i : Nat => (v + 1) + (i : Int)) := by rw [ih (v + 1) hstep]
      _ = (List.range (n + 1)).map (fun i : Nat => v + (i : Int)) := by
          rw [List.range_succ_eq_map, List.map_cons, List.map_map, hfun]
          simp

/-- Helper: with exactly `n` steps left to the bound, the explicit-form
loop visits `v, v+1, ..., v+n-1` in order. -/
theorem iterFuelLt_eq_range (E : EnumBounds) :
    ∀ (n : Nat) (v : Int), v + n = E.count →
      iterFuelLt E n v = (List.range n).map (fun i : Nat => v + (i : Int)) := by
  intro n
  induction n with
  | zero =>
    intro v _
    simp [iterFuelLt]
  | succ n ih =>
    intro v h
    have hvlt : decide (v < E.count) = true := by
      simp only [decide_eq_true_eq]
      omega
    have hstep : (v + 1) + (n : Int) = E.count := by
      push_cast at h
      omega
    have hfun : ((fun i : Nat => v + (i : Int)) ∘ Nat.succ) = fun i : Nat => (v + 1) + (i : Int) := by
      funext i
      simp only [Function.comp]
      push_cast
      ring
    calc iterFuelLt E (n + 1) v = v :: iterFuelLt E n (v + 1) := by
          simp [iterFuelLt, hvlt, preIncrement]
      _ = v :: (List.range n).map (fun i : Nat => (v + 1) + (i : Int)) := by rw [ih (v + 1) hstep]
      _ = (List.range (n + 1)).map (fun i : Nat => v + (i : Int)) := by
          rw [List.range_succ_eq_map, List.map_cons, List.map_map, hfun]
          simp

/-- Claim C1: `EnumIsValid(k)` is true iff `FIRST ≤ k < COUNT`; in
particular it is false at `k = COUNT` (the sentinel) and at every
`j < FIRST`. -/
theorem enumIsValid_spec (E : EnumBounds) (k j : Int) (hj : j < E.first) :
    (EnumIsValid E k = true ↔ (E.first ≤ k ∧ k < E.count)) ∧
    EnumIsValid E E.count = false ∧
    EnumIsValid E j = false := by
  refine ⟨?_, ?_, ?_⟩
  · simp [EnumIsValid, ge_iff_le]
  · simp [EnumIsValid]
  · have hnot : ¬(j ≥ E.first) := by omega
    simp [EnumIsValid, hnot]

/-- Witness for C1 at the three-element enumeration `⟨0, 3⟩`, `k = 1`,
`j = -1`. -/
theorem enumIsValid_spec_witness :
    ((-1 : Int) < (0 : Int)) ∧
    ((EnumIsValid ⟨0, 3⟩ 1 = true ↔ ((0 : Int) ≤ 1 ∧ (1 : Int) < 3)) ∧
     EnumIsValid ⟨0, 3⟩ 3 = false ∧
     EnumIsValid ⟨0, 3⟩ (-1) = false) :=
  ⟨by decide, enumIsValid_spec ⟨0, 3⟩ 1 (-1) (by decide)⟩

/-- Claim C2: pre-increment yields `v+1` and pre-decrement `v-1` in integer
space with no bounds check, saturation or wrap; the post-step variants
return the pre-step value while leaving the argument at `v+1` (resp.
`v-1`), so two successive post-decrements starting at `v` return `v` then
`v-1` and leave `v-2`. -/
theorem enumStep_spec (v : Int) :
    preIncrement v = v + 1 ∧
    preDecrement v = v - 1 ∧
    postIncrement v = (v, v + 1) ∧
    postDecrement v = (v, v - 1) ∧
    (postDecrement v).1 = v ∧
    (postDecrement v).2 = v - 1 ∧
    (postDecrement (postDecrement v).2).1 = v - 1 ∧
    (postDecrement (postDecrement v).2).2 = v - 2 := by
  refine ⟨rfl, rfl, rfl, rfl, rfl, rfl, rfl, ?_⟩
  show v - 1 - 1 = v - 2
  ring

/-- Claim C3: each sentinel comparison is equivalent to the explicit
comparison of the integer value against `COUNT`, and the loop in the
sentinel form computes the same visit list as the loop in the explicit
`< COUNT` form. -/
theorem sentinelComparisons_spec (E : EnumBounds) (v : Int) (h : E.first ≤ E.count) :
    (ltEnd E v = true ↔ v < E.count) ∧
    (eqEnd E v = true ↔ v = E.count) ∧
    (neEnd E v = true ↔ ¬(v = E.count)) ∧
    enumIterateLt E = enumIterate E := by
  refine ⟨by simp [ltEnd], by simp [eqEnd], by simp [neEnd], ?_⟩
  have hcast : ((E.count - E.first).toNat : Int) = E.count - E.first :=
    Int.toNat_of_nonneg (by omega)
  have hfuel : E.first + ((E.count - E.first).toNat : Int) = E.count := by
    rw [hcast]; ring
  have h1 := iterFuel_eq_range E (E.count - E.first).toNat E.first hfuel
  have h2 := iterFuelLt_eq_range E (E.count - E.first).toNat E.first hfuel
  unfold enumIterateLt enumIterate
  rw [h1, h2]

/-- Witness for C3 at the three-element enumeration `⟨0, 3⟩`, `v = 1`. -/
theorem sentinelComparisons_spec_witness :
    ((0 : Int) ≤ (3 : Int)) ∧
    ((ltEnd ⟨0, 3⟩ 1 = true ↔ (1 : Int) < 3) ∧
     (eqEnd ⟨0, 3⟩ 1 = true ↔ (1 : Int) = 3) ∧
     (neEnd ⟨0, 3⟩ 1 = true ↔ ¬((1 : Int) = 3)) ∧
     enumIterateLt ⟨0, 3⟩ = enumIterate ⟨0, 3⟩) :=
  ⟨by decide, sentinelComparisons_spec ⟨0, 3⟩ 1 (by decide)⟩

/-- Claim C4: iterating from `FIRST` by repeated increment until the value
compares equal to the sentinel visits exactly the `COUNT - FIRST` values
`FIRST, FIRST+1, ...` in declaration order, each exactly once; an empty
enumeration (`FIRST = COUNT`) visits zero values. -/
theorem enumIterate_spec (E : EnumBounds) (h : E.first ≤ E.count) :
    enumIterate E = (List.range (E.count - E.first).toNat).map (fun i : Nat => E.first + (i : Int)) ∧
    (enumIterate E).length = (E.count - E.first).toNat ∧
    (enumIterate E).Nodup ∧
    enumIterate ⟨E.count, E.count⟩ = [] := by
  have hcast : ((E.count - E.first).toNat : Int) = E.count - E.first :=
    Int.toNat_of_nonneg (by omega)
  have hfuel : E.first + ((E.count - E.first).toNat : Int) = E.count := by
    rw [hcast]; ring
  have key : enumIterate E
      = (List.range (E.count - E.first).toNat).map (fun i : Nat => E.first + (i : Int)) := by
    unfold enumIterate
    exact iterFuel_eq_range E (E.count - E.first).toNat E.first hfuel
  refine ⟨key, ?_, ?_, ?_⟩
  · rw [key, List.length_map, List.length_range]
  · rw [key]
    have hinj : Function.Injective (fun i : Nat => E.first + (i : Int)) := by
      intro a b hab
      simp only at hab
      omega
    exact List.Nodup.map hinj (List.nodup_range _)
  · unfold enumIterate
    simp [iterFuel]

/-- Witness for C4 at the three-element enumeration `⟨0, 3⟩`. -/
theorem enumIterate_spec_witness :
    ((0 : Int) ≤ (3 : Int)) ∧
    (enumIterate ⟨0, 3⟩
        = (List.range ((3 : Int) - (0 : Int)).toNat).map (fun i : Nat => (0 : Int) + (i : Int)) ∧
     (enumIterate ⟨0, 3⟩).length = ((3 : Int) - (0 : Int)).toNat ∧
     (enumIterate ⟨0, 3⟩).Nodup ∧
     enumIterate ⟨3, 3⟩ = []) :=
  ⟨by decide, enumIterate_spec ⟨0, 3⟩ (by decide)⟩

/-- Claim C5: after constructing a `ScopedBool` on `V`, `V = true`; after
the guarded scope exits by any path (normal completion or exception
propagation) `V = false` and the outcome still propagates; for nested
guards on the same `V`, `V = true` while both live, `V = false` after the
inner guard destructs, and `V = false` after the outer guard destructs. -/
theorem scopedBool_spec (ε : Type) (body bodyInner : Bool → Bool × Except ε Unit)
    (v : Bool) (e : ε) :
    ScopedBool_construct v = true ∧
    (runWithScopedBool ε body v).1 = false ∧
    (runWithScopedBool ε body v).2 = (body true).2 ∧
    (runWithScopedBool ε (fun v1 => (v1, Except.ok ())) v).1 = false ∧
    (runWithScopedBool ε (fun v1 => (v1, Except.error e)) v).1 = false ∧
    (runWithScopedBool ε (fun v1 => (v1, Except.error e)) v).2 = Except.error e ∧
    ScopedBool_construct (ScopedBool_construct v) = true ∧
    (runWithScopedBool ε bodyInner (ScopedBool_construct v)).1 = false ∧
    (runWithScopedBool ε (fun v1 => runWithScopedBool ε bodyInner v1) v).1 = false :=
  ⟨rfl, rfl, rfl, rfl, rfl, rfl, rfl, rfl, rfl⟩

/-- Claim C7 (code bug): with neither flag set, the second cascade's
else-branch redefines the DEBUG pair instead of defining
`tryDEVEL`/`catchDEVEL`, which are left undefined; and whenever the devel
pair is defined, `catchDEVEL` expands to `catch (clause)` with `clause` a
free identifier rather than a conventional parameterised catch. -/
theorem tryCatch_cascade_divergence :
    (tryCatchDefs false false).tryDEVEL = none ∧
    (tryCatchDefs false false).catchDEVEL = none ∧
    (tryCatchDefs false false).tryDEBUG = some PPExpansion.ifTrue ∧
    (tryCatchDefs false false).catchDEBUG = some PPExpansion.ifFalse ∧
    (tryCatchDefs true false).tryDEBUG = some PPExpansion.realTry ∧
    (tryCatchDefs true false).catchDEBUG = some PPExpansion.realCatchParam ∧
    (tryCatchDefs true false).tryDEVEL = some PPExpansion.realTry ∧
    (tryCatchDefs true false).catchDEVEL = some PPExpansion.catchFreeClause ∧
    (tryCatchDefs false true).tryDEBUG = some PPExpansion.ifTrue ∧
    (tryCatchDefs false true).tryDEVEL = some PPExpansion.realTry ∧
    (tryCatchDefs false true).catchDEVEL = some PPExpansion.catchFreeClause := by
  decide

/-- Claim C8: the size constants satisfy the declared arithmetic exactly,
and every small constant fits a 32-bit (hence any pointer-sized) signed
integer while every large constant fits a 64-bit signed integer. -/
theorem sizeConstants_spec :
    _1kb = 1024 ∧ _16kb = 16384 ∧ _1mb = 1024 * 1024 ∧ _256mb = 268435456 ∧
    _1gb = 1024 * _1mb ∧ _4gb = 4 * 1024 * 1024 * 1024 ∧
    _1gb + _1gb + _1gb + _1gb = _4gb ∧
    (0 < _1kb ∧ _1kb < 2 ^ 31 ∧ _4kb < 2 ^ 31 ∧ _16kb < 2 ^ 31 ∧ _32kb < 2 ^ 31 ∧
     _64kb < 2 ^ 31 ∧ _128kb < 2 ^ 31 ∧ _256kb < 2 ^ 31) ∧
    (0 < _1mb ∧ _1mb < 2 ^ 63 ∧ _8mb < 2 ^ 63 ∧ _16mb < 2 ^ 63 ∧ _32mb < 2 ^ 63 ∧
     _64mb < 2 ^ 63 ∧ _256mb < 2 ^ 63 ∧ _1gb < 2 ^ 63 ∧ _4gb < 2 ^ 63) := by
  decide

/-- Claim C9: `EnumAssert(v)` invokes the assertion collaborator exactly
when `EnumIsValid(v)` is false, and leaves the value unchanged. -/
theorem enumAssert_spec (E : EnumBounds) (id : Int) :
    ((EnumAssert E id).1 = true ↔ EnumIsValid E id = false) ∧
    (EnumAssert E id).2 = id := by
  constructor
  · simp [EnumAssert, pxAssertInvoked]
  · rfl

/-- Claim C10: the `ScopedBool` destructor writes `false` through the
recorded address unconditionally, whatever the target holds at destruction
time (including `true` re-set by an intervening party inside the scope);
it never restores a saved prior value. -/
theorem scopedBool_destruct_unconditional (atDestruction atConstruction : Bool) :
    ScopedBool_destruct atDestruction = false ∧
    ScopedBool_destruct true = false ∧
    ScopedBool_destruct (ScopedBool_construct atConstruction) = false ∧
    (runWithScopedBool Unit (fun _ => (true, Except.ok ())) atConstruction).1 = false :=
  ⟨rfl, rfl, rfl, rfl⟩

end PCSX2
